import Mathlib

/-!
Shallow embedding of the invoiceProcessor template-driven extraction engine.

The Python sources embedded here are:
- `src/infrastructure/nlp/TemplateInvoiceExtractor.py` (registry load, issuer
  identification, template matching/scoring, number/date normalization,
  confidence scoring, extraction orchestration);
- `src/infrastructure/nlp/InvoiceExtractor.py` (`_parse_german_number`);
- `src/models/TemplateGenerator.py` (`generate_template` call contract and
  `_parse_and_validate_template`).

Modelling conventions:
- Python strings are `List Char`; `str.lower` is modelled by ASCII
  `Char.toLower` (all inputs of interest are ASCII-relevant).
- Python floats are modelled by `ℚ`; decimal literals such as `0.7` are taken
  at their decimal value `7/10`.
- A Python function that can raise is modelled with `Option`/`Except`, where
  `none`/`.error` is the raised exception.
- Python dicts keyed by strings are association lists in insertion order,
  with in-place overwrite on key collision (`dictInsert`).
-/

/-- Python exception kinds relevant to the embedded code paths. -/
inductive PyErr where
  | typeError
  | valueError
  | notImplementedError
deriving DecidableEq, Repr

/-- Python `\s` whitespace class (ASCII part): space, tab, newline,
carriage return, vertical tab, form feed. -/
def isPySpace (c : Char) : Bool :=
  c = ' ' || c = '\t' || c = '\n' || c = '\r' || c = '\x0b' || c = '\x0c'

/-- The character class `[:\s]` used by the issuer/recipient context patterns. -/
def isColonWs (c : Char) : Bool := c = ':' || isPySpace c

/-- `[A-Z]` under `re.IGNORECASE`: any ASCII letter. -/
def isAsciiLetter (c : Char) : Bool :=
  ('a' ≤ c && c ≤ 'z') || ('A' ≤ c && c ≤ 'Z')

/-- Python `str.lower`, restricted to ASCII case mapping. -/
def pyLower (s : List Char) : List Char := s.map Char.toLower

/-- Python `str.strip()` (no argument): drop leading and trailing whitespace. -/
def pyStrip (s : List Char) : List Char :=
  ((s.dropWhile isPySpace).reverse.dropWhile isPySpace).reverse

/-- Python `str.split(sep)` for a single-character separator: splits on every
occurrence, keeping empty pieces, and yields `[""]` on the empty string. -/
def pySplit (sep : Char) : List Char → List (List Char)
  | [] => [[]]
  | c :: rest =>
    match pySplit sep rest with
    | h :: t => if c = sep then [] :: h :: t else (c :: h) :: t
    | [] => [[]]

/-- Python `str.zfill(2)`: left-pad with zeros to width 2; a leading sign
character stays in front of the inserted zeros. -/
def zfill2 (s : List Char) : List Char :=
  if 2 ≤ s.length then s
  else
    match s with
    | [] => ['0', '0']
    | c :: rest =>
      if c = '+' || c = '-' then c :: List.replicate (2 - s.length) '0' ++ rest
      else List.replicate (2 - s.length) '0' ++ s

/-- Numeric value of a digit character. -/
def charDigit (c : Char) : Nat := c.toNat - '0'.toNat

/-- Value of a digit string read in base 10. -/
def digitsToNat (s : List Char) : Nat := s.foldl (fun a c => 10 * a + charDigit c) 0

/-- Whether two consecutive underscores occur. -/
def hasDoubleUnderscore : List Char → Bool
  | '_' :: '_' :: _ => true
  | _ :: rest => hasDoubleUnderscore rest
  | [] => false

/-- Python unsigned integer-literal body: nonempty digits, with single
underscores allowed only between digits. -/
def pyIntDigits (s : List Char) : Option Nat :=
  if s.isEmpty then none
  else if s.head? = some '_' || s.getLast? = some '_' then none
  else if hasDoubleUnderscore s then none
  else if s.all (fun c => c.isDigit || c = '_') then
    some (digitsToNat (s.filter (fun c => c ≠ '_')))
  else none

/-- Python `int(str)`: strip whitespace, optional sign, digit body;
`none` models a raised `ValueError`. -/
def pyInt (s : List Char) : Option Int :=
  match pyStrip s with
  | '+' :: r => (pyIntDigits r).map Int.ofNat
  | '-' :: r => (pyIntDigits r).map (fun n => -(n : Int))
  | r => (pyIntDigits r).map Int.ofNat

/-- Mantissa of a Python float literal: `digits`, `digits.digits`, `.digits`
or `digits.`; at least one digit overall. -/
def pyFloatMantissa (s : List Char) : Option ℚ :=
  let ip := s.takeWhile Char.isDigit
  let rest := s.drop ip.length
  match rest with
  | [] => if ip.isEmpty then none else some (digitsToNat ip : ℚ)
  | '.' :: fp =>
    if fp.all Char.isDigit && !(ip.isEmpty && fp.isEmpty) then
      some ((digitsToNat ip : ℚ) + (digitsToNat fp : ℚ) / (10 : ℚ) ^ fp.length)
    else none
  | _ => none

/-- Python `float(str)` for finite decimal literals (optional surrounding
whitespace, optional sign, mantissa, optional exponent); `none` models a
raised `ValueError`. -/
def pyFloat (s : List Char) : Option ℚ :=
  let t := pyStrip s
  let signAndBody : ℚ × List Char :=
    match t with
    | '+' :: r => (1, r)
    | '-' :: r => (-1, r)
    | r => (1, r)
  let sign := signAndBody.1
  let body := signAndBody.2
  let mant := body.takeWhile (fun c => c ≠ 'e' && c ≠ 'E')
  match body.drop mant.length with
  | [] => (pyFloatMantissa mant).map (fun m => sign * m)
  | _ :: ex =>
    let esignAndDigits : Int × List Char :=
      match ex with
      | '+' :: r => (1, r)
      | '-' :: r => (-1, r)
      | r => (1, r)
    let ed := esignAndDigits.2
    if !ed.isEmpty && ed.all Char.isDigit then
      (pyFloatMantissa mant).map
        (fun m => sign * m * (10 : ℚ) ^ (esignAndDigits.1 * (digitsToNat ed : Int)))
    else none

/-- Remove the first `n` occurrences of `'.'` — Python
`str.replace(".", "", n)` for a nonnegative count. -/
def removeFirstNDots : Nat → List Char → List Char
  | _, [] => []
  | 0, s => s
  | n + 1, c :: rest =>
    if c = '.' then removeFirstNDots n rest else c :: removeFirstNDots (n + 1) rest

/-- `TemplateInvoiceExtractor._parse_number` (lines 455–482): strip spaces and
non-breaking spaces; with decimal separator `.` remove all commas, otherwise
remove all dots and turn the comma into a dot; then parse as a float.
`none` is the `except ValueError` branch returning `None`. -/
def parse_number (numStr : List Char) (decimalSeparator : Char) : Option ℚ :=
  let s := numStr.filter (fun c => c ≠ ' ' && c ≠ '\xa0')
  if decimalSeparator = '.' then
    pyFloat (s.filter (fun c => c ≠ ','))
  else
    pyFloat ((s.filter (fun c => c ≠ '.')).map (fun c => if c = ',' then '.' else c))

/-- `InvoiceExtractor._parse_german_number` (lines 246–255): remove spaces,
then `num_str.replace(".", "", num_str.count(".") - 1)` (Python passes `-1`,
i.e. replace-all, when the count is zero — equivalent here since there are no
dots to remove), then comma becomes dot, then `float(...)`.
`none` models the `ValueError` that `float` raises; this function has no
handler of its own (its caller `_extract_amount` catches it). -/
def parse_german_number (numStr : List Char) : Option ℚ :=
  let s := numStr.filter (fun c => c ≠ ' ')
  let s := removeFirstNDots (s.count '.' - 1) s
  let s := s.map (fun c => if c = ',' then '.' else c)
  pyFloat s

/-- The separator replacement of `_normalize_date` (line 487):
`date_str = date_str.replace("/", ".").replace("-", ".")` — note the source
rebinds `date_str`, so the fallback `return date_str` at line 503 returns
this replaced string, not the original input. -/
def sepReplaced (dateStr : List Char) : List Char :=
  (dateStr.map (fun c => if c = '/' then '.' else c)).map
    (fun c => if c = '-' then '.' else c)

/-- The components of `_normalize_date` (line 488): the separator-replaced
string split on `.`. -/
def dateParts (dateStr : List Char) : List (List Char) :=
  pySplit '.' (sepReplaced dateStr)

/-- `TemplateInvoiceExtractor._normalize_date` (lines 484–503): replace `/`
and `-` by `.`, split on `.`; with exactly three parts, zero-pad day and
month and expand a two-digit year with the `< 50` pivot; otherwise return
the separator-replaced string (the rebound `date_str`). `none` models the
`ValueError` raised by `int(year)` when the year part is two characters
long but not an integer literal. -/
def normalize_date (dateStr : List Char) : Option (List Char) :=
  match dateParts dateStr with
  | [day, month, year] =>
    let day := zfill2 day
    let month := zfill2 month
    if year.length = 2 then
      match pyInt year with
      | none => none
      | some y =>
        let year := if y < 50 then '2' :: '0' :: year else '1' :: '9' :: year
        some (day ++ '.' :: month ++ '.' :: year)
    else
      some (day ++ '.' :: month ++ '.' :: year)
  | _ => some (sepReplaced dateStr)

/-- Python `a in b` for strings: `needle` occurs contiguously in `haystack`
(an empty needle always occurs). -/
def isSubstring (needle : List Char) : List Char → Bool
  | [] => needle.isEmpty
  | c :: rest => needle.isPrefixOf (c :: rest) || isSubstring needle rest

/-- One token of the restricted regular-expression shapes occurring in the
embedded patterns: a literal run, a mandatory whitespace run (`\s+`), or an
optional single character (`d?`). -/
inductive RTok where
  | lit (s : List Char)
  | wsPlus
  | optChar (c : Char)

/-- All remainders of `t` after matching the token sequence at the head of
`t`, in the backtracking order of the Python engine (greedy first). -/
def matchToks : List RTok → List Char → List (List Char)
  | [], t => [t]
  | RTok.lit s :: toks, t =>
    if s.isPrefixOf t then matchToks toks (t.drop s.length) else []
  | RTok.wsPlus :: toks, t =>
    let run := (t.takeWhile isPySpace).length
    ((List.range run).map (fun i => run - i)).flatMap
      (fun k => matchToks toks (t.drop k))
  | RTok.optChar c :: toks, t =>
    (match t with
      | c2 :: rest => if c2 = c then matchToks toks rest else []
      | [] => []) ++ matchToks toks t

/-- `re.search` of `P[:\s]*.*?K` with `re.DOTALL`, where `P` is the token
sequence of one label alternative and `K` a literal: some occurrence of the
label is followed, anywhere later, by an occurrence of `K` (the `[:\s]*` and
`.*?` gaps absorb arbitrary characters under `DOTALL`). -/
def labelThenLit (lab : List RTok) (k : List Char) : List Char → Bool
  | [] => (matchToks lab []).any (fun r => isSubstring k r)
  | c :: rest =>
    (matchToks lab (c :: rest)).any (fun r => isSubstring k r)
      || labelThenLit lab k rest

/-- Gap admissible between a label and the keyword for the *non-DOTALL*
patterns `P[:\s]*.*?K`: a (possibly empty) colon/whitespace run followed by
newline-free characters. -/
def gapOkNoDotall (gap : List Char) : Bool :=
  !(gap.dropWhile isColonWs).contains '\n'

/-- `re.search` of `P[:\s]*.*?K` *without* `re.DOTALL` (issuer-identification
strategy 4): the gap between label and keyword may contain newlines only
inside its leading `[:\s]*` part. -/
def labelThenLitNoDotall (lab : List RTok) (k : List Char) : List Char → Bool
  | [] =>
    (matchToks lab []).any (fun r =>
      (List.range (r.length + 1)).any (fun j =>
        k.isPrefixOf (r.drop j) && gapOkNoDotall (r.take j)))
  | c :: rest =>
    (matchToks lab (c :: rest)).any (fun r =>
      (List.range (r.length + 1)).any (fun j =>
        k.isPrefixOf (r.drop j) && gapOkNoDotall (r.take j)))
      || labelThenLitNoDotall lab k rest

/-- `re.search` of `K.*?(?:A|B|...)` with `re.DOTALL`: some occurrence of the
literal `K` is followed, anywhere later, by one of the alternatives. -/
def litThenAny (k : List Char) (alts : List (List Char)) : List Char → Bool
  | [] => k.isEmpty && alts.any (fun a => isSubstring a [])
  | c :: rest =>
    (if k.isPrefixOf (c :: rest) then
      alts.any (fun a => isSubstring a ((c :: rest).drop k.length))
    else false) || litThenAny k alts rest

/-- The label alternatives of the recipient-context pattern of
`_match_template` (line 237):
`(?:to|an|bill\s+to|rechnung\s+an|recipient|empfänger|customer|kunde)`. -/
def recipientLabels : List (List RTok) :=
  [ [RTok.lit ['t', 'o']],
    [RTok.lit ['a', 'n']],
    [RTok.lit ['b', 'i', 'l', 'l'], RTok.wsPlus, RTok.lit ['t', 'o']],
    [RTok.lit ['r', 'e', 'c', 'h', 'n', 'u', 'n', 'g'], RTok.wsPlus, RTok.lit ['a', 'n']],
    [RTok.lit ['r', 'e', 'c', 'i', 'p', 'i', 'e', 'n', 't']],
    [RTok.lit ['e', 'm', 'p', 'f', 'ä', 'n', 'g', 'e', 'r']],
    [RTok.lit ['c', 'u', 's', 't', 'o', 'm', 'e', 'r']],
    [RTok.lit ['k', 'u', 'n', 'd', 'e']] ]

/-- The label alternatives of the first issuer-context pattern of
`_match_template` (line 257):
`(?:from|von|issuer|rechnungssteller|sender|absender)`. -/
def issuerLabels : List (List RTok) :=
  [ [RTok.lit ['f', 'r', 'o', 'm']],
    [RTok.lit ['v', 'o', 'n']],
    [RTok.lit ['i', 's', 's', 'u', 'e', 'r']],
    [RTok.lit ['r', 'e', 'c', 'h', 'n', 'u', 'n', 'g', 's', 's', 't', 'e', 'l', 'l', 'e', 'r']],
    [RTok.lit ['s', 'e', 'n', 'd', 'e', 'r']],
    [RTok.lit ['a', 'b', 's', 'e', 'n', 'd', 'e', 'r']] ]

/-- The trailing alternatives of the second issuer-context pattern of
`_match_template` (line 258): `(?:invoice|rechnung|bill)`. -/
def invoiceTokens : List (List Char) :=
  [ ['i', 'n', 'v', 'o', 'i', 'c', 'e'],
    ['r', 'e', 'c', 'h', 'n', 'u', 'n', 'g'],
    ['b', 'i', 'l', 'l'] ]

/-- `_match_template` lines 236–243: the keyword appears inside a
"to/bill-to/recipient/customer" labeled context (searched over the whole
lowercased text with `re.IGNORECASE | re.DOTALL`). -/
def inRecipientContext (textL kwL : List Char) : Bool :=
  recipientLabels.any (fun lab => labelThenLit lab kwL textL)

/-- `_match_template` lines 256–264: the keyword appears after a
"from/issuer/sender" label, or the keyword is followed by an
"invoice/rechnung/bill" token (`re.IGNORECASE | re.DOTALL`). -/
def inIssuerContext (textL kwL : List Char) : Bool :=
  issuerLabels.any (fun lab => labelThenLit lab kwL textL)
    || litThenAny kwL invoiceTokens textL

/-- A parsed template document, restricted to the keys the embedded code
reads: `issuer`, `keywords`, `fields`. `none` models an absent key. The
values of `fields` (logical field name ↦ pattern text) are opaque here. -/
structure RawTemplate where
  issuer : Option (List Char)
  keywords : Option (List (List Char))
  fields : Option (List (List Char × List Char))
deriving DecidableEq, Repr

/-- Python truthiness of the parsed document restricted to its modelled keys:
an empty dict is falsy. -/
def RawTemplate.truthy (t : RawTemplate) : Bool :=
  t.issuer.isSome || t.keywords.isSome || t.fields.isSome

/-- Python dict assignment `d[k] = v`: overwrite in place on an existing key,
otherwise append (insertion order preserved). -/
def dictInsert (k : List Char) (v : RawTemplate) :
    List (List Char × RawTemplate) → List (List Char × RawTemplate)
  | [] => [(k, v)]
  | (k2, v2) :: rest =>
    if k2 = k then (k, v) :: rest else (k2, v2) :: dictInsert k v rest

/-- `TemplateInvoiceExtractor._load_templates` (lines 22–44) over the already
parsed documents of the template directory, in directory order. A document
that failed to parse (`none`, the `except` branch) is skipped; a parsed
document is indexed under its lowercased issuer exactly when it is truthy
and has the `issuer` key. No other key is checked at load time.
`loadStep` processes one document of the directory. -/
def loadStep (acc : List (List Char × RawTemplate)) (doc : Option RawTemplate) :
    List (List Char × RawTemplate) :=
  match doc with
  | none => acc
  | some t =>
    if t.truthy && t.issuer.isSome then
      dictInsert (pyLower (t.issuer.getD [])) t acc
    else acc

/-- The registry built by `_load_templates` from the parsed documents. -/
def load_templates (docs : List (Option RawTemplate)) :
    List (List Char × RawTemplate) :=
  docs.foldl loadStep []

/-- `TemplateGenerator._parse_and_validate_template` (lines 101–128) after
YAML parsing: `none` models a document that failed to parse or is not a
dictionary (`.error .valueError` in both cases); a parsed document must have
the `issuer`, `keywords` and `fields` keys or a `ValueError` is raised. -/
def parse_and_validate_template (doc : Option RawTemplate) :
    Except PyErr RawTemplate :=
  match doc with
  | none => .error .valueError
  | some t =>
    if t.issuer.isNone then .error .valueError
    else if t.keywords.isNone then .error .valueError
    else if t.fields.isNone then .error .valueError
    else .ok t

/-- The per-keyword step of the scoring loop of `_match_template`
(lines 224–264), threading `(score, len(matched_keywords))`: skip keywords
absent from the text; `+1` base for a match; `-5` and `continue` when the
keyword appears in a recipient context; otherwise `+3` when the keyword
appears in the top section and, additionally, `+4` when one of the two
issuer-context patterns matches. -/
def keywordStep (textL top : List Char) (acc : Int × Nat) (kw : List Char) :
    Int × Nat :=
  let kwL := pyLower kw
  if !isSubstring kwL textL then acc
  else
    let score := acc.1 + 1
    let matched := acc.2 + 1
    if inRecipientContext textL kwL then (score - 5, matched)
    else
      let score := if isSubstring kwL top then score + 3 else score
      let score := if inIssuerContext textL kwL then score + 4 else score
      (score, matched)

/-- Accumulated `(score, len(matched_keywords))` of one template's keyword
list against the lowercased text and top section. -/
def templateRawScore (textL top : List Char) (kws : List (List Char)) :
    Int × Nat :=
  kws.foldl (keywordStep textL top) (0, 0)

/-- `normalized_score = score * (len(matched_keywords) / len(keywords))`
(line 269), as an exact rational. -/
def normalizedScore (textL top : List Char) (kws : List (List Char)) : ℚ :=
  let sm := templateRawScore textL top kws
  (sm.1 : ℚ) * ((sm.2 : ℚ) / (kws.length : ℚ))

/-- The top section of `_match_template` (lines 200–201): the first
`max 1 (len(lines) // 5)` lines of the lowercased text. -/
def topSectionOf (textL : List Char) : List Char :=
  let lines := pySplit '\n' textL
  List.intercalate ['\n'] (lines.take (max 1 (lines.length / 5)))

/-- The normalized score `_match_template` assigns to a template on a raw
text (after lowercasing and top-section computation). -/
def templateNormScore (text : List Char) (t : RawTemplate) : ℚ :=
  let textL := pyLower text
  normalizedScore textL (topSectionOf textL) (t.keywords.getD [])

/-- The direct-issuer short circuit of `_match_template` (lines 204–209):
with a truthy identified issuer, the first registry entry whose key is a
substring of the lowercased issuer or vice versa is returned immediately. -/
def directIssuerHit (templates : List (List Char × RawTemplate))
    (identified : Option (List Char)) : Option RawTemplate :=
  match identified with
  | none => none
  | some i =>
    if i.isEmpty then none
    else
      let il := pyLower i
      (templates.find? (fun kt => isSubstring kt.1 il || isSubstring il kt.1)).map
        (fun kt => kt.2)

/-- One iteration of the template loop of `_match_template` (lines 215–275),
threading `(best_match, best_score)`: templates with an empty (or absent)
keyword list are skipped; a template is a candidate only with positive score
and at least one matched keyword; a candidate replaces the best exactly when
its normalized score strictly exceeds the best score. -/
def scanStep (textL top : List Char) (best : Option RawTemplate × ℚ)
    (t : RawTemplate) : Option RawTemplate × ℚ :=
  let kws := t.keywords.getD []
  if kws.isEmpty then best
  else
    let sm := templateRawScore textL top kws
    if 0 < sm.1 && 0 < sm.2 then
      let ns := normalizedScore textL top kws
      if best.2 < ns then (some t, ns) else best
    else best

/-- The whole template loop of `_match_template`: fold `scanStep` over the
registry entries in insertion order, starting from `(None, 0)`. -/
def scanFold (textL top : List Char)
    (templates : List (List Char × RawTemplate))
    (acc : Option RawTemplate × ℚ) : Option RawTemplate × ℚ :=
  templates.foldl (fun acc kt => scanStep textL top acc kt.2) acc

/-- `TemplateInvoiceExtractor._match_template` (lines 183–283). -/
def match_template (templates : List (List Char × RawTemplate))
    (text : List Char) (identified : Option (List Char)) : Option RawTemplate :=
  let textL := pyLower text
  let top := topSectionOf textL
  match directIssuerHit templates identified with
  | some t => some t
  | none =>
    let best := scanFold textL top templates (none, 0)
    if best.1.isSome && (2 : ℚ) ≤ best.2 then best.1 else none

/-- The fields of the extraction-result record that
`_calculate_confidence` (lines 505–532) reads. The required set is
`rechnungsnummer`, `rechnungssteller`, `rechnungsbetrag`; the optional set is
`rechnungsdatum`, `fälligkeitsdatum` (spelled `faelligkeitsdatum` here), `leistungen`. -/
structure ExtractionResult where
  rechnungsnummer : Option (List Char)
  rechnungssteller : Option (List Char)
  rechnungsbetrag : Option ℚ
  rechnungsdatum : Option (List Char)
  faelligkeitsdatum : Option (List Char)
  leistungen : List (List Char)
deriving DecidableEq, Repr

/-- Python truthiness of `result.get(field)` for a string-valued field:
absent and the empty string are falsy. -/
def pyTruthyStr : Option (List Char) → Bool
  | none => false
  | some s => !s.isEmpty

/-- Python truthiness of `result.get(field)` for a float-valued field:
absent and `0.0` are falsy. -/
def pyTruthyAmount : Option ℚ → Bool
  | none => false
  | some q => q ≠ 0

/-- Python truthiness of a list-valued field: the empty list is falsy. -/
def pyTruthyList (l : List (List Char)) : Bool := !l.isEmpty

/-- `sum(1 for field in required_fields if result.get(field))`. -/
def requiredCount (r : ExtractionResult) : Nat :=
  (if pyTruthyStr r.rechnungsnummer then 1 else 0)
    + (if pyTruthyStr r.rechnungssteller then 1 else 0)
    + (if pyTruthyAmount r.rechnungsbetrag then 1 else 0)

/-- `sum(1 for field in optional_fields if result.get(field))`. -/
def optionalCount (r : ExtractionResult) : Nat :=
  (if pyTruthyStr r.rechnungsdatum then 1 else 0)
    + (if pyTruthyStr r.faelligkeitsdatum then 1 else 0)
    + (if pyTruthyList r.leistungen then 1 else 0)

/-- Python `round(x, 2)` on the exact rational value: round half to even at
the second decimal. (No value reachable from `_calculate_confidence` lies on
a midpoint, so half-even and the float rounding of the source agree there.) -/
def round2 (x : ℚ) : ℚ :=
  let y := x * 100
  let f : Int := ⌊y⌋
  let r : Int :=
    if y - f < 1 / 2 then f
    else if 1 / 2 < y - f then f + 1
    else if f % 2 = 0 then f else f + 1
  (r : ℚ) / 100

/-- `TemplateInvoiceExtractor._calculate_confidence` (lines 505–532):
`round(required/3 * 0.7 + optional/3 * 0.3, 2)`, the decimal literals taken
at their exact values. -/
def calculate_confidence (r : ExtractionResult) : ℚ :=
  let required_score : ℚ := (requiredCount r : ℚ) / 3
  let optional_score : ℚ := (optionalCount r : ℚ) / 3
  round2 (required_score * (7 / 10) + optional_score * (3 / 10))

/-- Collapse whitespace: `re.sub(r"\s+", " ", s)` replaces each maximal
whitespace run by a single space (a whitespace character merges with the
collapsed run that follows it). -/
def collapseWs : List Char → List Char
  | [] => []
  | c :: rest =>
    let out := collapseWs rest
    if isPySpace c then
      match out with
      | ' ' :: o2 => ' ' :: o2
      | _ => ' ' :: out
    else c :: out

/-- The legal-entity markers of `_identify_issuer` strategy 1 (lines 118–121). -/
def companyIndicators : List (List Char) :=
  [ ['g','m','b','h'], ['a','g'], ['i','n','c'], ['l','t','d'], ['l','l','c'],
    ['c','o','r','p'], ['c','o','r','p','o','r','a','t','i','o','n'],
    ['a','p','s'], ['a','/','s'], ['s','e','r','v','i','c','e','s'],
    ['e','.','k'], ['k','g'], ['o','h','g'], ['c','o','.'] ]

/-- The word `invoice` (used by the `startswith` check of strategy 1). -/
def invoiceWord : List Char := ['i','n','v','o','i','c','e']

/-- One header line of `_identify_issuer` strategy 1 (lines 115–131): if the
stripped line contains a company indicator, remove `«`/`»`, collapse and
strip whitespace, and accept when the length is in `[5, 100]` and the line
does not start with `invoice`. -/
def identifyFromHeaderLine (line : List Char) : Option (List Char) :=
  let lineClean := pyStrip line
  if companyIndicators.any (fun ind => isSubstring ind (pyLower lineClean)) then
    let issuer := lineClean.filter (fun c => c ≠ '«' && c ≠ '»')
    let issuer := pyStrip (collapseWs issuer)
    if 5 ≤ issuer.length && issuer.length ≤ 100
        && !(invoiceWord.isPrefixOf (pyLower issuer)) then
      some issuer
    else none
  else none

/-- Case-insensitive (ASCII) prefix test against a lowercase literal. -/
def isPrefixOfCI (p s : List Char) : Bool := p.isPrefixOf (pyLower (s.take p.length))

/-- `matchToks` with case-insensitive literal comparison, for the patterns
compiled with `re.IGNORECASE` over original-case text. -/
def matchToksCI : List RTok → List Char → List (List Char)
  | [], t => [t]
  | RTok.lit s :: toks, t =>
    if isPrefixOfCI s t then matchToksCI toks (t.drop s.length) else []
  | RTok.wsPlus :: toks, t =>
    let run := (t.takeWhile isPySpace).length
    ((List.range run).map (fun i => run - i)).flatMap
      (fun k => matchToksCI toks (t.drop k))
  | RTok.optChar c :: toks, t =>
    (match t with
      | c2 :: rest => if c2.toLower = c then matchToksCI toks rest else []
      | [] => []) ++ matchToksCI toks t

/-- The capture of the strategy-2 patterns `...[:\s]+([A-Z][^\n]{3,50})`
after a label match: a nonempty colon/whitespace run, then a letter, then
greedily up to 50 further newline-free characters, at least 3 of them. -/
def captureIssuerName (r : List Char) : Option (List Char) :=
  let run := r.takeWhile isColonWs
  if run.isEmpty then none
  else
    match r.drop run.length with
    | c :: cs =>
      if isAsciiLetter c then
        let tail := (cs.takeWhile (fun x => x ≠ '\n')).take 50
        if 3 ≤ tail.length then some (c :: tail) else none
      else none
    | [] => none

/-- Leftmost `re.search` for one strategy-2 pattern: at each start position,
try the label alternatives in order (with greedy backtracking) and capture. -/
def searchCapture (alts : List (List RTok)) : List Char → Option (List Char)
  | [] => (alts.flatMap (fun a => matchToksCI a [])).findSome? captureIssuerName
  | c :: rest =>
    match (alts.flatMap (fun a => matchToksCI a (c :: rest))).findSome? captureIssuerName with
    | some cap => some cap
    | none => searchCapture alts rest

/-- The three explicit issuer patterns of `_identify_issuer` strategy 2
(lines 134–138): label alternatives of
`(?:from|von|issuer|rechnungssteller|sender|absender)`,
`(?:billed?\s+by|rechnung\s+von)` and `(?:invoice\s+from|rechnung\s+von)`,
each followed by `[:\s]+([A-Z][^\n]{3,50})`. -/
def strategy2Patterns : List (List (List RTok)) :=
  [ issuerLabels,
    [ [RTok.lit ['b','i','l','l','e'], RTok.optChar 'd', RTok.wsPlus, RTok.lit ['b','y']],
      [RTok.lit ['r','e','c','h','n','u','n','g'], RTok.wsPlus, RTok.lit ['v','o','n']] ],
    [ [RTok.lit ['i','n','v','o','i','c','e'], RTok.wsPlus, RTok.lit ['f','r','o','m']],
      [RTok.lit ['r','e','c','h','n','u','n','g'], RTok.wsPlus, RTok.lit ['v','o','n']] ] ]

/-- `_identify_issuer` strategy 2 (lines 140–148): for each pattern in order,
take the leftmost capture, strip it, collapse whitespace, and accept when the
length is in `[5, 100]`. -/
def identifyFromPatterns (text : List Char) : Option (List Char) :=
  strategy2Patterns.findSome? (fun alts =>
    match searchCapture alts text with
    | none => none
    | some cap =>
      let issuer := collapseWs (pyStrip cap)
      if 5 ≤ issuer.length && issuer.length ≤ 100 then some issuer else none)

/-- The recipient labels of `_identify_issuer` strategy 4 (line 170):
`(?:to|an|bill\s+to|rechnung\s+an|recipient|empfänger)` — without the
`customer|kunde` alternatives of `_match_template`. -/
def recipientLabelsStrategy4 : List (List RTok) := recipientLabels.take 6

/-- `_identify_issuer` strategy 4 (lines 163–178): the first registry key
that occurs in the lowercased top section and not inside a recipient-labeled
context there (searched without `re.DOTALL`). -/
def identifyFromKnownTemplates (templates : List (List Char × RawTemplate))
    (lines : List (List Char)) : Option (List Char) :=
  let top := List.intercalate ['\n'] (lines.take (max 1 (lines.length / 5)))
  templates.findSome? (fun kt =>
    let key := kt.1
    if isSubstring (pyLower key) (pyLower top) then
      if recipientLabelsStrategy4.any
          (fun lab => labelThenLitNoDotall lab (pyLower key) (pyLower top)) then
        none
      else some key
    else none)

/-- `TemplateInvoiceExtractor._identify_issuer` (lines 98–181). The external
named-entity recognizer of strategy 3 (`util.extract_company_name`, a spaCy
collaborator) is a parameter; `none` covers both an unavailable collaborator
(the `except` branch) and a `None` result. -/
def identify_issuer (templates : List (List Char × RawTemplate))
    (ner : List Char → Option (List Char)) (text : List Char) :
    Option (List Char) :=
  let lines := pySplit '\n' text
  match (lines.take 5).findSome? identifyFromHeaderLine with
  | some i => some i
  | none =>
    match identifyFromPatterns text with
    | some i => some i
    | none =>
      let headerText := List.intercalate ['\n']
        (lines.take (max 1 (lines.length / 5)))
      match ner headerText with
      | some c =>
        if c.isEmpty then identifyFromKnownTemplates templates lines
        else some c
      | none => identifyFromKnownTemplates templates lines

/-- The parameter names of `TemplateGenerator.generate_template`
(`src/models/TemplateGenerator.py` line 18): besides `self`, only
`invoice_text`; the method has no `**kwargs`. -/
def generateTemplateParams : List (List Char) :=
  [ ['i','n','v','o','i','c','e','_','t','e','x','t'] ]

/-- The keyword-argument names of the call
`generator.generate_template(invoice_text=text, company_name=identified_issuer)`
in `TemplateInvoiceExtractor.extract_invoice_data` (line 69). -/
def generateTemplateCallKwargs : List (List Char) :=
  [ ['i','n','v','o','i','c','e','_','t','e','x','t'],
    ['c','o','m','p','a','n','y','_','n','a','m','e'] ]

/-- Python call binding for `generate_template`: a keyword argument whose
name is not among the parameters raises `TypeError` before the body runs;
were binding to succeed, the body would reach `_call_llm`, which raises
`NotImplementedError` in the source (lines 158–173). -/
def callGenerateTemplate : Except PyErr Unit :=
  if generateTemplateCallKwargs.all
      (fun k => generateTemplateParams.contains k) then
    .error .notImplementedError
  else .error .typeError

/-- The outcome of `extract_invoice_data`, restricted to what the embedded
code paths decide: either the no-match record (`extraction_method="none"`,
`confidence=0.0`, with the identified issuer and the registry's key set), or
a successful template match (field extraction itself applies the
user-supplied patterns of the template and is outside the embedded scope). -/
inductive ExtractOutcome where
  | noMatch (identified : Option (List Char)) (available : List (List Char))
  | matched (template : RawTemplate) (identified : Option (List Char))
deriving DecidableEq, Repr

/-- `TemplateInvoiceExtractor.extract_invoice_data` (lines 46–96): identify
the issuer, match a template; on no match with `auto_generate` and a truthy
identified issuer, call the template generator (whose call raises, see
`callGenerateTemplate`), reload the registry and retry once — the reloaded
registry is the parameter again, since the failed generation wrote no new
template file; any exception of the generation path propagates (the source
has no handler around it). -/
def extract_invoice_data (templates : List (List Char × RawTemplate))
    (ner : List Char → Option (List Char)) (text : List Char)
    (auto_generate : Bool) : Except PyErr ExtractOutcome :=
  let identified := identify_issuer templates ner text
  match match_template templates text identified with
  | some t => .ok (.matched t identified)
  | none =>
    if auto_generate && pyTruthyStr identified then
      match callGenerateTemplate with
      | .error e => .error e
      | .ok _ =>
        match match_template templates text identified with
        | some t => .ok (.matched t identified)
        | none => .ok (.noMatch identified (templates.map (fun kt => kt.1)))
    else .ok (.noMatch identified (templates.map (fun kt => kt.1)))

/-- Example text `acme invoice` (lowercase, one line). -/
def exTextAcmeInvoice : List Char :=
  ['a','c','m','e',' ','i','n','v','o','i','c','e']

/-- Example keyword `acme`. -/
def kwAcme : List Char := ['a','c','m','e']

/-- Example template with issuer `acme` and the single keyword `acme`. -/
def tmplAcme : RawTemplate :=
  { issuer := some kwAcme, keywords := some [kwAcme], fields := none }

/-- Example template document with an `issuer` key but neither `keywords`
nor `fields`. -/
def tmplNoKeywords : RawTemplate :=
  { issuer := some kwAcme, keywords := none, fields := none }

/-- Example invoice text `Acme Test GmbH\nRechnung 2024`. -/
def exTextGmbH : List Char :=
  ['A','c','m','e',' ','T','e','s','t',' ','G','m','b','H','\n',
   'R','e','c','h','n','u','n','g',' ','2','0','2','4']

/-- The issuer that `_identify_issuer` strategy 1 finds in `exTextGmbH`. -/
def exIssuerGmbH : List Char :=
  ['A','c','m','e',' ','T','e','s','t',' ','G','m','b','H']

/-- Example template document carrying all three required keys. -/
def tmplFull : RawTemplate :=
  { issuer := some kwAcme, keywords := some [kwAcme],
    fields := some [(['a','m','o','u','n','t'], ['p','a','t'])] }

/-- Claim C7: with an explicit decimal separator, the amount parser yields
1234.56 both from `1,234.56` with separator `.` (commas removed as thousands
grouping) and from `1.234,56` with separator `,` (dots removed, comma turned
into a dot), after stripping spaces and non-breaking spaces. -/
theorem C7_parse_amount_round_trip :
    parse_number ['1',',','2','3','4','.','5','6'] '.' = some (1234.56 : ℚ)
      ∧ parse_number ['1','.','2','3','4',',','5','6'] ',' = some (1234.56 : ℚ) := by
  constructor <;>
    (simp +decide [parse_number, pyFloat, pyStrip, pyFloatMantissa, digitsToNat,
      charDigit, isPySpace]) <;> norm_num

/-- Claim C2: contrary to the claim, the heuristic German-number parser does
not return 1234.56 on `1.234,56`: because `replace(".", "", count - 1)`
removes all but the last dot, the single dot survives, the comma becomes a
second dot, and `float("1.234.56")` raises `ValueError` (here `none`), so
the candidate amount is discarded by the caller. -/
theorem C2_german_amount_value_error :
    parse_german_number ['1','.','2','3','4',',','5','6'] = none := by decide

/-- Claim C5: contrary to the claim, the auto-generation path raises: with an
empty registry (so no template matches) and a text whose issuer is
identified, `extract_invoice_data(text, auto_generate=True)` calls
`generate_template(invoice_text=..., company_name=...)`, whose signature has
no `company_name` parameter, so a `TypeError` propagates to the caller —
whatever the external named-entity collaborator would answer. -/
theorem C5_auto_generate_type_error :
    ∀ ner, extract_invoice_data [] ner exTextGmbH true = .error .typeError := by
  intro ner
  have hfind : List.findSome? identifyFromHeaderLine
      (List.take 5 (pySplit '\n' exTextGmbH)) = some exIssuerGmbH := by decide
  have hid : identify_issuer [] ner exTextGmbH = some exIssuerGmbH := by
    simp only [identify_issuer, hfind]
  simp only [extract_invoice_data, hid]
  rfl

/-- Claim C6 (amended part): whenever the input does not split into exactly
three day/month/year components after separator replacement,
`normalize_date` returns the separator-replaced string — the rebound
`date_str`, not the original input — and on that path does not raise. -/
theorem C6_malformed_passthrough (s : List Char)
    (h : (dateParts s).length ≠ 3) :
    normalize_date s = some (sepReplaced s) := by
  unfold normalize_date
  rcases hp : dateParts s with _ | ⟨a, _ | ⟨b, _ | ⟨c, _ | ⟨d, t⟩⟩⟩⟩ <;>
    first
      | rfl
      | exact absurd (by rw [hp]; rfl) h

/-- Witness for `C6_malformed_passthrough` at the two-component input
`a/b`, whose result `a.b` differs from the input. -/
theorem C6_malformed_passthrough_witness :
    (dateParts ['a','/','b']).length ≠ 3
      ∧ normalize_date ['a','/','b'] = some (sepReplaced ['a','/','b']) :=
  ⟨by decide, C6_malformed_passthrough ['a','/','b'] (by decide)⟩

/-- Claim C6 (counterexample): both halves of the claim fail on the code.
On `01.02.ab` the input does split into three components, the year part has
length two, and `int("ab")` raises `ValueError` — so `_normalize_date` can
fail. And `a/b` does not split into three components, yet it is returned
with its separators replaced (`a.b`), not unchanged — because line 487
rebinds `date_str` before the fallback `return date_str`. -/
theorem C6_value_error_counterexample :
    normalize_date ['0','1','.','0','2','.','a','b'] = none
      ∧ normalize_date ['a','/','b'] = some ['a','.','b']
      ∧ (['a','.','b'] : List Char) ≠ ['a','/','b'] := by decide

/-- Claim C10: `_calculate_confidence` counts a field as present only when
truthy — an amount of exactly 0.0 and an empty issuer string count as
absent, so the confidence of a result with `rechnungsbetrag = 0.0` equals
that of the otherwise-identical result with the amount missing, and likewise
for an empty-string field versus a missing one. -/
theorem C10_truthiness_confidence (r : ExtractionResult) :
    (r.rechnungsbetrag = some 0 →
      calculate_confidence r = calculate_confidence { r with rechnungsbetrag := none })
      ∧ (r.rechnungssteller = some [] →
        calculate_confidence r = calculate_confidence { r with rechnungssteller := none }) := by
  constructor <;> intro h <;>
    simp [calculate_confidence, requiredCount, optionalCount, h,
      pyTruthyAmount, pyTruthyStr]

/-- Witness for `C10_truthiness_confidence` at a concrete result with a zero
amount and an empty issuer string. -/
theorem C10_truthiness_confidence_witness :
    (ExtractionResult.mk (some ['x','1','2','3']) (some []) (some 0) none none []).rechnungsbetrag
        = some 0
      ∧ calculate_confidence
          (ExtractionResult.mk (some ['x','1','2','3']) (some []) (some 0) none none [])
        = calculate_confidence
          { ExtractionResult.mk (some ['x','1','2','3']) (some []) (some 0) none none [] with
              rechnungsbetrag := none } :=
  ⟨rfl, (C10_truthiness_confidence
    (ExtractionResult.mk (some ['x','1','2','3']) (some []) (some 0) none none [])).1 rfl⟩

/-- Claim C3 (counterexample): in the text `acme invoice`, the keyword
`acme` is matched, lies in the top section, and is not in a recipient
context, yet it contributes 8 (base 1 + top-section 3 + issuer-context 4) to
the accumulated score, not the claimed 1 + 3 = 4: the two bonuses are not
mutually exclusive in the code. -/
theorem C3_bonus_counterexample :
    isSubstring kwAcme (pyLower exTextAcmeInvoice) = true
      ∧ isSubstring kwAcme (topSectionOf (pyLower exTextAcmeInvoice)) = true
      ∧ inRecipientContext (pyLower exTextAcmeInvoice) kwAcme = false
      ∧ templateRawScore (pyLower exTextAcmeInvoice)
          (topSectionOf (pyLower exTextAcmeInvoice)) [kwAcme] ≠ (4, 1)
      ∧ templateRawScore (pyLower exTextAcmeInvoice)
          (topSectionOf (pyLower exTextAcmeInvoice)) [kwAcme] = (8, 1) := by
  decide

/-- Claim C3 (amended): for a matched keyword outside recipient context, the
`+3` top-section bonus and the `+4` issuer-context bonus are independent
`if`s, not an `if`/`else`: the keyword contributes
`1 + (3 if in top section) + (4 if in issuer context)`, so a top-section
keyword near an issuer indicator contributes 8, not 4. -/
theorem C3_bonuses_stack (textL top kw : List Char)
    (kws : List (List Char))
    (h1 : isSubstring (pyLower kw) textL = true)
    (h2 : inRecipientContext textL (pyLower kw) = false) :
    templateRawScore textL top (kws ++ [kw]) =
      ((templateRawScore textL top kws).1 + 1
          + (if isSubstring (pyLower kw) top then 3 else 0)
          + (if inIssuerContext textL (pyLower kw) then 4 else 0),
        (templateRawScore textL top kws).2 + 1) := by
  rw [templateRawScore, List.foldl_append]
  show keywordStep textL top (templateRawScore textL top kws) kw = _
  rw [keywordStep]
  simp only [h1, h2, Bool.not_true, Bool.false_eq_true, if_false, if_true]
  cases hT : isSubstring (pyLower kw) top <;>
    cases hI : inIssuerContext textL (pyLower kw) <;> simp

/-- Witness for `C3_bonuses_stack`: the keyword `acme` in `acme invoice`
(top section and issuer context both hit) contributes `1 + 3 + 4`. -/
theorem C3_bonuses_stack_witness :
    isSubstring (pyLower kwAcme) (pyLower exTextAcmeInvoice) = true
      ∧ inRecipientContext (pyLower exTextAcmeInvoice) (pyLower kwAcme) = false
      ∧ templateRawScore (pyLower exTextAcmeInvoice)
          (topSectionOf (pyLower exTextAcmeInvoice)) ([] ++ [kwAcme]) =
        ((0 : Int) + 1
            + (if isSubstring (pyLower kwAcme)
                  (topSectionOf (pyLower exTextAcmeInvoice)) then 3 else 0)
            + (if inIssuerContext (pyLower exTextAcmeInvoice) (pyLower kwAcme)
                then 4 else 0),
          0 + 1) :=
  ⟨by decide, by decide,
    C3_bonuses_stack (pyLower exTextAcmeInvoice)
      (topSectionOf (pyLower exTextAcmeInvoice)) kwAcme []
      (by decide) (by decide)⟩

/-- Claim C4 (counterexample): at registry load only the `issuer` key is
checked; a parsed document with an issuer but neither `keywords` nor
`fields` is indexed all the same. -/
theorem C4_load_counterexample :
    load_templates [some tmplNoKeywords] = [(kwAcme, tmplNoKeywords)]
      ∧ tmplNoKeywords.keywords = none ∧ tmplNoKeywords.fields = none := by
  decide

/-- Membership after a dict insertion comes from the inserted pair or from
the original map. -/
theorem mem_dictInsert {k : List Char} {v : RawTemplate}
    {m : List (List Char × RawTemplate)} {p : List Char × RawTemplate}
    (hp : p ∈ dictInsert k v m) : p = (k, v) ∨ p ∈ m := by
  induction m with
  | nil =>
    rw [dictInsert] at hp
    simpa using hp
  | cons head tail ih =>
    obtain ⟨k2, v2⟩ := head
    rw [dictInsert] at hp
    by_cases h : k2 = k
    · rw [if_pos h] at hp
      rcases List.mem_cons.mp hp with h1 | h1
      · exact Or.inl h1
      · exact Or.inr (List.mem_cons_of_mem _ h1)
    · rw [if_neg h] at hp
      rcases List.mem_cons.mp hp with h1 | h1
      · exact Or.inr (by rw [h1]; exact List.mem_cons_self _ _)
      · rcases ih h1 with h2 | h2
        · exact Or.inl h2
        · exact Or.inr (List.mem_cons_of_mem _ h2)

/-- `loadStep` only ever indexes templates that have the `issuer` key. -/
theorem loadStep_issuer (acc : List (List Char × RawTemplate))
    (doc : Option RawTemplate)
    (h : ∀ p ∈ acc, (Prod.snd p).issuer.isSome = true) :
    ∀ p ∈ loadStep acc doc, (Prod.snd p).issuer.isSome = true := by
  intro p hp
  cases doc with
  | none => exact h p hp
  | some t =>
    rw [loadStep] at hp
    by_cases hc : (t.truthy && t.issuer.isSome) = true
    · rw [if_pos hc] at hp
      rcases mem_dictInsert hp with rfl | hm
      · simp only [Bool.and_eq_true] at hc
        exact hc.2
      · exact h p hm
    · rw [if_neg hc] at hp
      exact h p hp

/-- Registry-load fold invariant: every indexed template has `issuer`. -/
theorem load_fold_issuer (docs : List (Option RawTemplate)) :
    ∀ acc, (∀ p ∈ acc, (Prod.snd p).issuer.isSome = true) →
      ∀ p ∈ docs.foldl loadStep acc, (Prod.snd p).issuer.isSome = true := by
  induction docs with
  | nil => intro acc h; exact h
  | cons d ds ih =>
    intro acc h
    exact ih _ (loadStep_issuer acc d h)

/-- Claim C4 (amended): registry load rejects exactly the unparsable, falsy
or `issuer`-less documents, so every indexed template has the `issuer` key
(but possibly no `keywords` or `fields`); only the generation-time validator
`_parse_and_validate_template` enforces all three keys. -/
theorem C4_validation :
    (∀ docs key t, (key, t) ∈ load_templates docs → t.issuer.isSome = true)
      ∧ (∀ d t, parse_and_validate_template d = .ok t →
          t.issuer.isSome = true ∧ t.keywords.isSome = true
            ∧ t.fields.isSome = true) := by
  constructor
  · intro docs key t hmem
    exact load_fold_issuer docs [] (by simp) (key, t) hmem
  · intro d t h
    cases d with
    | none => exact absurd h (by simp [parse_and_validate_template])
    | some t2 =>
      rw [parse_and_validate_template] at h
      by_cases h1 : t2.issuer.isNone
      · simp [h1] at h
      · by_cases h2 : t2.keywords.isNone
        · simp [h1, h2] at h
        · by_cases h3 : t2.fields.isNone
          · simp [h1, h2, h3] at h
          · simp [h1, h2, h3] at h
            subst h
            simp_all [Option.isNone_iff_eq_none, Option.isSome_iff_ne_none]

/-- Witness for `C4_validation`: the loaded `tmplNoKeywords` has `issuer`;
the validated `tmplFull` has all three keys. -/
theorem C4_validation_witness :
    ((kwAcme, tmplNoKeywords) ∈ load_templates [some tmplNoKeywords]
      ∧ tmplNoKeywords.issuer.isSome = true)
      ∧ (parse_and_validate_template (some tmplFull) = .ok tmplFull
        ∧ tmplFull.issuer.isSome = true ∧ tmplFull.keywords.isSome = true
          ∧ tmplFull.fields.isSome = true) :=
  ⟨⟨by decide,
    C4_validation.1 [some tmplNoKeywords] kwAcme tmplNoKeywords (by decide)⟩,
    ⟨by rfl, C4_validation.2 (some tmplFull) tmplFull (by rfl)⟩⟩

/-- The confidence value as a function of the two field counts. -/
theorem calculate_confidence_counts (r : ExtractionResult) :
    calculate_confidence r =
      round2 ((requiredCount r : ℚ) / 3 * (7 / 10)
        + (optionalCount r : ℚ) / 3 * (3 / 10)) := rfl

/-- Strict monotonicity of the rounded confidence in the required count, for
the reachable count ranges. -/
theorem round2_conf_strict_mono (rc oc : Nat) (hrc : rc ≤ 2) (hoc : oc ≤ 3) :
    round2 ((rc : ℚ) / 3 * (7 / 10) + (oc : ℚ) / 3 * (3 / 10))
      < round2 (((rc : ℚ) + 1) / 3 * (7 / 10) + (oc : ℚ) / 3 * (3 / 10)) := by
  interval_cases rc <;> interval_cases oc <;> norm_num [round2]

/-- The optional count is at most 3. -/
theorem optionalCount_le_three (r : ExtractionResult) : optionalCount r ≤ 3 := by
  unfold optionalCount
  split <;> split <;> split <;> simp

/-- Claim C8: confidence is strictly monotone in the required fields — for
two results identical on the optional fields (`rechnungsdatum`,
`fälligkeitsdatum`, `leistungen`), turning exactly one previously-absent
(falsy) required field truthy while keeping the other two required fields
identical strictly increases the rounded confidence. -/
theorem C8_confidence_strict_mono (r r2 : ExtractionResult)
    (hdat : r.rechnungsdatum = r2.rechnungsdatum)
    (hfae : r.faelligkeitsdatum = r2.faelligkeitsdatum)
    (hlei : r.leistungen = r2.leistungen)
    (hreq :
      (pyTruthyStr r.rechnungsnummer = false
          ∧ pyTruthyStr r2.rechnungsnummer = true
          ∧ r.rechnungssteller = r2.rechnungssteller
          ∧ r.rechnungsbetrag = r2.rechnungsbetrag)
        ∨ (r.rechnungsnummer = r2.rechnungsnummer
          ∧ pyTruthyStr r.rechnungssteller = false
          ∧ pyTruthyStr r2.rechnungssteller = true
          ∧ r.rechnungsbetrag = r2.rechnungsbetrag)
        ∨ (r.rechnungsnummer = r2.rechnungsnummer
          ∧ r.rechnungssteller = r2.rechnungssteller
          ∧ pyTruthyAmount r.rechnungsbetrag = false
          ∧ pyTruthyAmount r2.rechnungsbetrag = true)) :
    calculate_confidence r < calculate_confidence r2 := by
  have hopt : optionalCount r = optionalCount r2 := by
    unfold optionalCount
    rw [hdat, hfae, hlei]
  have hcount : requiredCount r2 = requiredCount r + 1 ∧ requiredCount r ≤ 2 := by
    unfold requiredCount
    rcases hreq with ⟨h1, h2, h3, h4⟩ | ⟨h1, h2, h3, h4⟩ | ⟨h1, h2, h3, h4⟩
    · simp only [h1, h2, h3, h4]
      cases hA : pyTruthyStr r2.rechnungssteller <;>
        cases hB : pyTruthyAmount r2.rechnungsbetrag <;> simp [hA, hB]
    · simp only [h1, h2, h3, h4]
      cases hA : pyTruthyStr r2.rechnungsnummer <;>
        cases hB : pyTruthyAmount r2.rechnungsbetrag <;> simp [hA, hB]
    · simp only [h1, h2, h3, h4]
      cases hA : pyTruthyStr r2.rechnungsnummer <;>
        cases hB : pyTruthyStr r2.rechnungssteller <;> simp [hA, hB]
  rw [calculate_confidence_counts, calculate_confidence_counts, hcount.1, ← hopt]
  have := round2_conf_strict_mono (requiredCount r) (optionalCount r)
    hcount.2 (optionalCount_le_three r)
  simpa [Nat.cast_add] using this

/-- Witness for `C8_confidence_strict_mono`: adding the amount to a result
that has only the invoice number strictly increases the confidence. -/
theorem C8_confidence_strict_mono_witness :
    calculate_confidence
        (ExtractionResult.mk (some ['a','b','1','2']) none none none none [])
      < calculate_confidence
        (ExtractionResult.mk (some ['a','b','1','2']) none (some 42) none none []) :=
  C8_confidence_strict_mono
    (ExtractionResult.mk (some ['a','b','1','2']) none none none none [])
    (ExtractionResult.mk (some ['a','b','1','2']) none (some 42) none none [])
    rfl rfl rfl
    (Or.inr (Or.inr ⟨rfl, rfl, by decide, by decide⟩))

/-- A digit character is none of the separator characters. -/
theorem digit_ne_seps (c : Char) (h : c.isDigit = true) :
    c ≠ '.' ∧ c ≠ '/' ∧ c ≠ '-' := by
  refine ⟨?_, ?_, ?_⟩ <;> rintro rfl <;> exact absurd h (by decide)

/-- On a well-formed `DD·MM·YYYY` input (two digit-characters, a separator
among dot, slash and dash, two digit-characters, the separator again, four
digit-characters), `normalize_date` canonicalizes the separators and keeps
the components. -/
theorem normalize_date_wellformed (d1 d2 m1 m2 y1 y2 y3 y4 sep : Char)
    (hd1 : d1.isDigit = true) (hd2 : d2.isDigit = true)
    (hm1 : m1.isDigit = true) (hm2 : m2.isDigit = true)
    (hy1 : y1.isDigit = true) (hy2 : y2.isDigit = true)
    (hy3 : y3.isDigit = true) (hy4 : y4.isDigit = true)
    (hsep : sep = '.' ∨ sep = '/' ∨ sep = '-') :
    normalize_date [d1, d2, sep, m1, m2, sep, y1, y2, y3, y4]
      = some [d1, d2, '.', m1, m2, '.', y1, y2, y3, y4] := by
  obtain ⟨hd1a, hd1b, hd1c⟩ := digit_ne_seps d1 hd1
  obtain ⟨hd2a, hd2b, hd2c⟩ := digit_ne_seps d2 hd2
  obtain ⟨hm1a, hm1b, hm1c⟩ := digit_ne_seps m1 hm1
  obtain ⟨hm2a, hm2b, hm2c⟩ := digit_ne_seps m2 hm2
  obtain ⟨hy1a, hy1b, hy1c⟩ := digit_ne_seps y1 hy1
  obtain ⟨hy2a, hy2b, hy2c⟩ := digit_ne_seps y2 hy2
  obtain ⟨hy3a, hy3b, hy3c⟩ := digit_ne_seps y3 hy3
  obtain ⟨hy4a, hy4b, hy4c⟩ := digit_ne_seps y4 hy4
  have hparts : dateParts [d1, d2, sep, m1, m2, sep, y1, y2, y3, y4]
      = [[d1, d2], [m1, m2], [y1, y2, y3, y4]] := by
    rcases hsep with rfl | rfl | rfl <;>
      simp [dateParts, pySplit, hd1a, hd1b, hd1c, hd2a, hd2b, hd2c,
        hm1a, hm1b, hm1c, hm2a, hm2b, hm2c, hy1a, hy1b, hy1c,
        hy2a, hy2b, hy2c, hy3a, hy3b, hy3c, hy4a, hy4b, hy4c]
  unfold normalize_date
  rw [hparts]
  simp [zfill2]

/-- Claim C9: date normalization is idempotent on well-formed
`DD.MM.YYYY` / `DD/MM/YYYY` / `DD-MM-YYYY` inputs:
`normalizeDate (normalizeDate x) = normalizeDate x`. -/
theorem C9_normalize_date_idempotent (d1 d2 m1 m2 y1 y2 y3 y4 sep : Char)
    (hd1 : d1.isDigit = true) (hd2 : d2.isDigit = true)
    (hm1 : m1.isDigit = true) (hm2 : m2.isDigit = true)
    (hy1 : y1.isDigit = true) (hy2 : y2.isDigit = true)
    (hy3 : y3.isDigit = true) (hy4 : y4.isDigit = true)
    (hsep : sep = '.' ∨ sep = '/' ∨ sep = '-') :
    (normalize_date [d1, d2, sep, m1, m2, sep, y1, y2, y3, y4]).bind
        normalize_date
      = normalize_date [d1, d2, sep, m1, m2, sep, y1, y2, y3, y4] := by
  rw [normalize_date_wellformed d1 d2 m1 m2 y1 y2 y3 y4 sep
    hd1 hd2 hm1 hm2 hy1 hy2 hy3 hy4 hsep]
  rw [Option.some_bind]
  exact normalize_date_wellformed d1 d2 m1 m2 y1 y2 y3 y4 '.'
    hd1 hd2 hm1 hm2 hy1 hy2 hy3 hy4 (Or.inl rfl)

/-- Witness for `C9_normalize_date_idempotent` at `01/02/2020`. -/
theorem C9_normalize_date_idempotent_witness :
    ('0' : Char).isDigit = true
      ∧ (normalize_date ['0','1','/','0','2','/','2','0','2','0']).bind
          normalize_date
        = normalize_date ['0','1','/','0','2','/','2','0','2','0'] :=
  ⟨by decide,
    C9_normalize_date_idempotent '0' '1' '0' '2' '2' '0' '2' '0' '/'
      (by decide) (by decide) (by decide) (by decide) (by decide) (by decide)
      (by decide) (by decide) (Or.inr (Or.inl rfl))⟩

/-- A template without keywords scores zero. -/
theorem normalizedScore_nil (textL top : List Char) :
    normalizedScore textL top [] = 0 := by
  simp [normalizedScore, templateRawScore]

/-- A template that is not a candidate (nonpositive score or no matched
keyword) has nonpositive normalized score. -/
theorem normalizedScore_nonpos (textL top : List Char) (kws : List (List Char))
    (h : ¬(0 < (templateRawScore textL top kws).1
        ∧ 0 < (templateRawScore textL top kws).2)) :
    normalizedScore textL top kws ≤ 0 := by
  unfold normalizedScore
  rcases Nat.eq_zero_or_pos (templateRawScore textL top kws).2 with hm | hm
  · simp [hm]
  · have hs : (templateRawScore textL top kws).1 ≤ 0 := by
      by_contra hc
      exact h ⟨lt_of_not_le hc, hm⟩
    have hq : (0 : ℚ) ≤ ((templateRawScore textL top kws).2 : ℚ)
        / ((kws.length : ℚ)) := by positivity
    calc ((templateRawScore textL top kws).1 : ℚ)
          * (((templateRawScore textL top kws).2 : ℚ) / (kws.length : ℚ))
        ≤ 0 * (((templateRawScore textL top kws).2 : ℚ) / (kws.length : ℚ)) :=
          mul_le_mul_of_nonneg_right (by exact_mod_cast hs) hq
      _ = 0 := by ring

/-- One scan step never decreases the best score. -/
theorem scanStep_snd_le (textL top : List Char) (acc : Option RawTemplate × ℚ)
    (t : RawTemplate) : acc.2 ≤ (scanStep textL top acc t).2 := by
  unfold scanStep
  dsimp only
  split
  · exact le_refl _
  · split
    · split
      · next h => exact le_of_lt h
      · exact le_refl _
    · exact le_refl _

/-- One scan step either leaves the accumulator unchanged or replaces it by
the current template together with its normalized score (which then is a
template with a nonempty keyword list and a strictly larger score). -/
theorem scanStep_cases (textL top : List Char) (acc : Option RawTemplate × ℚ)
    (t : RawTemplate) :
    scanStep textL top acc t = acc
      ∨ (scanStep textL top acc t
          = (some t, normalizedScore textL top (t.keywords.getD []))
        ∧ t.keywords.getD [] ≠ []) := by
  unfold scanStep
  dsimp only
  split
  · exact Or.inl rfl
  · next hkw =>
    split
    · split
      · exact Or.inr ⟨rfl, by simpa using hkw⟩
      · exact Or.inl rfl
    · exact Or.inl rfl

/-- The scan fold never decreases the best score. -/
theorem scanFold_snd_mono (textL top : List Char)
    (ts : List (List Char × RawTemplate)) :
    ∀ acc, acc.2 ≤ (scanFold textL top ts acc).2 := by
  induction ts with
  | nil => intro acc; exact le_refl _
  | cons kt ts ih =>
    intro acc
    exact le_trans (scanStep_snd_le textL top acc kt.2) (ih _)

/-- The final best score bounds every registry template's normalized score
(for a nonnegative starting score). -/
theorem scanFold_bound (textL top : List Char)
    (ts : List (List Char × RawTemplate)) :
    ∀ acc, 0 ≤ acc.2 → ∀ kt ∈ ts,
      normalizedScore textL top (kt.2.keywords.getD [])
        ≤ (scanFold textL top ts acc).2 := by
  induction ts with
  | nil => intro acc _ kt hkt; exact absurd hkt (List.not_mem_nil kt)
  | cons kt0 ts ih =>
    intro acc hacc kt hkt
    rcases List.mem_cons.mp hkt with rfl | hmem
    · have hstep : normalizedScore textL top (kt.2.keywords.getD [])
          ≤ (scanStep textL top acc kt.2).2 := by
        unfold scanStep
        dsimp only
        split
        · next hkw =>
          rw [show kt.2.keywords.getD [] = [] by simpa using hkw,
            normalizedScore_nil]
          exact hacc
        · split
          · next hcand =>
            split
            · exact le_refl _
            · next hnlt => exact le_of_not_lt hnlt
          · next hncand =>
            refine le_trans (normalizedScore_nonpos textL top _ ?_) hacc
            intro hc
            exact hncand (by simp [hc.1, hc.2])
      exact le_trans hstep (scanFold_snd_mono textL top ts _)
    · exact ih (scanStep textL top acc kt0.2)
        (le_trans hacc (scanStep_snd_le textL top acc kt0.2)) kt hmem

/-- The scan fold either returns the start accumulator or the pair of some
registry template (with nonempty keyword list) and its normalized score. -/
theorem scanFold_achieved (textL top : List Char)
    (ts : List (List Char × RawTemplate)) :
    ∀ acc, scanFold textL top ts acc = acc
      ∨ ∃ kt ∈ ts, scanFold textL top ts acc
          = (some kt.2, normalizedScore textL top (kt.2.keywords.getD []))
        ∧ kt.2.keywords.getD [] ≠ [] := by
  induction ts with
  | nil => intro acc; exact Or.inl rfl
  | cons kt0 ts ih =>
    intro acc
    have hfold : scanFold textL top (kt0 :: ts) acc
        = scanFold textL top ts (scanStep textL top acc kt0.2) := rfl
    rcases scanStep_cases textL top acc kt0.2 with hstep | ⟨hstep, hne⟩
    · rcases ih (scanStep textL top acc kt0.2) with h | ⟨kt, hmem, heq, hne2⟩
      · exact Or.inl (by rw [hfold, h, hstep])
      · exact Or.inr ⟨kt, List.mem_cons_of_mem _ hmem, by rw [hfold, heq], hne2⟩
    · rcases ih (scanStep textL top acc kt0.2) with h | ⟨kt, hmem, heq, hne2⟩
      · exact Or.inr ⟨kt0, List.mem_cons_self _ _,
          by rw [hfold, h, hstep], hne⟩
      · exact Or.inr ⟨kt, List.mem_cons_of_mem _ hmem, by rw [hfold, heq], hne2⟩

/-- Claim C1: with no direct issuer hit, the matcher accepts exactly at the
2.0 threshold — if every template with a nonempty keyword list scores below
2.0 the match is `none`; if some template scores at least 2.0, the match
returns a template scoring at least 2.0 that maximizes the normalized score
over the registry. -/
theorem C1_matcher_threshold (text : List Char) (identified : Option (List Char))
    (templates : List (List Char × RawTemplate))
    (hdirect : directIssuerHit templates identified = none) :
    ((∀ kt ∈ templates, kt.2.keywords.getD [] ≠ [] →
        templateNormScore text kt.2 < 2) →
      match_template templates text identified = none)
    ∧ ((∃ kt ∈ templates, (2 : ℚ) ≤ templateNormScore text kt.2) →
      ∃ t, match_template templates text identified = some t
        ∧ (2 : ℚ) ≤ templateNormScore text t
        ∧ ∀ kt ∈ templates,
            templateNormScore text kt.2 ≤ templateNormScore text t) := by
  have hmt : match_template templates text identified
      = (if (scanFold (pyLower text) (topSectionOf (pyLower text)) templates
              (none, 0)).1.isSome
            && decide ((2 : ℚ) ≤ (scanFold (pyLower text)
              (topSectionOf (pyLower text)) templates (none, 0)).2)
          then (scanFold (pyLower text) (topSectionOf (pyLower text)) templates
            (none, 0)).1
          else none) := by
    unfold match_template
    rw [hdirect]
  have hscore : ∀ t : RawTemplate, templateNormScore text t
      = normalizedScore (pyLower text) (topSectionOf (pyLower text))
        (t.keywords.getD []) := fun _ => rfl
  constructor
  · intro hall
    rcases scanFold_achieved (pyLower text) (topSectionOf (pyLower text))
        templates (none, 0) with heq | ⟨kt, hmem, heq, hne⟩
    · rw [hmt, heq]
      simp
    · rw [hmt, heq]
      have hlt := hall kt hmem hne
      rw [hscore] at hlt
      simp [not_le.mpr hlt]
  · rintro ⟨kt0, hmem0, hge⟩
    have hge2 : (2 : ℚ) ≤ (scanFold (pyLower text)
        (topSectionOf (pyLower text)) templates (none, 0)).2 := by
      refine le_trans ?_ (scanFold_bound (pyLower text)
        (topSectionOf (pyLower text)) templates (none, 0) (le_refl 0) kt0 hmem0)
      rw [hscore] at hge
      exact hge
    rcases scanFold_achieved (pyLower text) (topSectionOf (pyLower text))
        templates (none, 0) with heq | ⟨kt, hmem, heq, hne⟩
    · rw [heq] at hge2
      exact absurd hge2 (by norm_num)
    · refine ⟨kt.2, ?_, ?_, ?_⟩
      · rw [hmt, heq]
        rw [heq] at hge2
        simp [hge2]
      · rw [hscore]
        rw [heq] at hge2
        exact hge2
      · intro kt2 hmem2
        rw [hscore, hscore]
        have := scanFold_bound (pyLower text) (topSectionOf (pyLower text))
          templates (none, 0) (le_refl 0) kt2 hmem2
        rw [heq] at this
        exact this

/-- Witness for `C1_matcher_threshold`: with the single-template registry
for `acme` and the text `acme invoice` (normalized score 8), the matcher
returns that template. -/
theorem C1_matcher_threshold_witness :
    directIssuerHit [(kwAcme, tmplAcme)] none = none
      ∧ (∃ kt ∈ [(kwAcme, tmplAcme)],
          (2 : ℚ) ≤ templateNormScore exTextAcmeInvoice kt.2)
      ∧ ∃ t, match_template [(kwAcme, tmplAcme)] exTextAcmeInvoice none = some t
          ∧ (2 : ℚ) ≤ templateNormScore exTextAcmeInvoice t
          ∧ ∀ kt ∈ [(kwAcme, tmplAcme)],
              templateNormScore exTextAcmeInvoice kt.2
                ≤ templateNormScore exTextAcmeInvoice t :=
  have hex : ∃ kt ∈ [(kwAcme, tmplAcme)],
      (2 : ℚ) ≤ templateNormScore exTextAcmeInvoice kt.2 :=
    ⟨(kwAcme, tmplAcme), by simp, by
      have h8 : templateRawScore (pyLower exTextAcmeInvoice)
          (topSectionOf (pyLower exTextAcmeInvoice)) [kwAcme] = (8, 1) := by
        decide
      simp [templateNormScore, normalizedScore, tmplAcme, h8]
      norm_num⟩
  ⟨rfl, hex,
    (C1_matcher_threshold exTextAcmeInvoice none [(kwAcme, tmplAcme)] rfl).2 hex⟩
